import Mathlib

/-!
# Movement: the settings word, the event kinds and the scheduler state

A shallow embedding of `movement/movement.h`.

* `movement_settings_t` is a union of a 32-bit `value` and a `bit` view made of
  nine bit-fields.  The storage is modelled as a natural number below `2 ^ 32`;
  the bit-fields are allocated from the least significant bit upwards in
  declaration order (the layout of the little-endian ARM target of the watch),
  so a field of width `w` at offset `o` reads `value / 2 ^ o % 2 ^ w`.
* `movement_event_type_t` is the enumeration of event kinds, with its C values.
* `movement_state_t` is the scheduler record; its machine integers are modelled
  as `Nat`/`Int` and every store into a field is reduced to the field's width.

The header only declares `movement_move_to_face`, `movement_move_to_next_face`
and `movement_illuminate_led`; their bodies, the button tracker and the
tick-boundary step are modelled from the specification and say so.
-/

namespace Movement

/-! ## Settings -/

/-- The nine members of the `bit` view of `movement_settings_t`, in declaration order. -/
inductive Field where
  | reserved
  | button_should_sound
  | to_interval
  | le_interval
  | led_duration
  | led_red_color
  | led_green_color
  | clock_mode_24h
  | use_imperial_units
  deriving DecidableEq, Repr

/-- The declared width of a bit-field (`uint32_t name : width`). -/
def Field.width : Field → Nat
  | .reserved => 14
  | .button_should_sound => 1
  | .to_interval => 2
  | .le_interval => 3
  | .led_duration => 2
  | .led_red_color => 4
  | .led_green_color => 4
  | .clock_mode_24h => 1
  | .use_imperial_units => 1

/-- The members of the `bit` struct in the order the header declares them. -/
def Field.decls : List Field :=
  [.reserved, .button_should_sound, .to_interval, .le_interval, .led_duration,
   .led_red_color, .led_green_color, .clock_mode_24h, .use_imperial_units]

/-- The sum of the widths of the members declared before `f` in `l`. -/
def Field.offsetIn : List Field → Field → Nat
  | [], _ => 0
  | g :: rest, f => if g = f then 0 else g.width + Field.offsetIn rest f

/-- The position of the lowest bit of a field: fields are packed in declaration order,
each one starting where the previous one ends. -/
def Field.offset (f : Field) : Nat :=
  Field.offsetIn Field.decls f

/-- Reading `settings.bit.f` from the storage word `v`. -/
def readField (f : Field) (v : Nat) : Nat :=
  v / 2 ^ f.offset % 2 ^ f.width

/-- The assignment `settings.bit.f = x` on the storage word `v`: the value is converted to
the field's width and replaces the field's bits. -/
def writeField (f : Field) (x : Nat) (v : Nat) : Nat :=
  v - readField f v * 2 ^ f.offset + x % 2 ^ f.width * 2 ^ f.offset

/-- The `bit` view of `movement_settings_t`: one value per bit-field. -/
structure movement_settings_bit where
  reserved : Nat
  button_should_sound : Nat
  to_interval : Nat
  le_interval : Nat
  led_duration : Nat
  led_red_color : Nat
  led_green_color : Nat
  clock_mode_24h : Nat
  use_imperial_units : Nat
  deriving DecidableEq, Repr

/-- Decoding: the `bit` view of the storage word `v` (reading `value` as `bit`). -/
def decode (v : Nat) : movement_settings_bit where
  reserved := readField .reserved v
  button_should_sound := readField .button_should_sound v
  to_interval := readField .to_interval v
  le_interval := readField .le_interval v
  led_duration := readField .led_duration v
  led_red_color := readField .led_red_color v
  led_green_color := readField .led_green_color v
  clock_mode_24h := readField .clock_mode_24h v
  use_imperial_units := readField .use_imperial_units v

/-- Encoding: the storage word whose bit-fields hold the given values (reading `bit` as
`value`); each member is converted to its width, as a store into a bit-field does. -/
def encode (r : movement_settings_bit) : Nat :=
  r.reserved % 2 ^ Field.reserved.width * 2 ^ Field.reserved.offset
  + r.button_should_sound % 2 ^ Field.button_should_sound.width
      * 2 ^ Field.button_should_sound.offset
  + r.to_interval % 2 ^ Field.to_interval.width * 2 ^ Field.to_interval.offset
  + r.le_interval % 2 ^ Field.le_interval.width * 2 ^ Field.le_interval.offset
  + r.led_duration % 2 ^ Field.led_duration.width * 2 ^ Field.led_duration.offset
  + r.led_red_color % 2 ^ Field.led_red_color.width * 2 ^ Field.led_red_color.offset
  + r.led_green_color % 2 ^ Field.led_green_color.width * 2 ^ Field.led_green_color.offset
  + r.clock_mode_24h % 2 ^ Field.clock_mode_24h.width * 2 ^ Field.clock_mode_24h.offset
  + r.use_imperial_units % 2 ^ Field.use_imperial_units.width
      * 2 ^ Field.use_imperial_units.offset

/-- A member value is in range when it fits the member's declared width. -/
def movement_settings_bit.inRange (r : movement_settings_bit) : Prop :=
  r.reserved < 2 ^ 14 ∧ r.button_should_sound < 2 ∧ r.to_interval < 4 ∧ r.le_interval < 8
  ∧ r.led_duration < 4 ∧ r.led_red_color < 16 ∧ r.led_green_color < 16
  ∧ r.clock_mode_24h < 2 ∧ r.use_imperial_units < 2

/-- The end (exclusive) of the bit range of a field. -/
def Field.stop (f : Field) : Nat :=
  f.offset + f.width

/-! ## Events -/

/-- The event kinds of `movement_event_type_t`, in declaration order. -/
inductive movement_event_type_t where
  | EVENT_NONE
  | EVENT_ACTIVATE
  | EVENT_TICK
  | EVENT_LOW_ENERGY_UPDATE
  | EVENT_BACKGROUND_TASK
  | EVENT_TIMEOUT
  | EVENT_LIGHT_BUTTON_DOWN
  | EVENT_LIGHT_BUTTON_UP
  | EVENT_LIGHT_LONG_PRESS
  | EVENT_MODE_BUTTON_DOWN
  | EVENT_MODE_BUTTON_UP
  | EVENT_MODE_LONG_PRESS
  | EVENT_ALARM_BUTTON_DOWN
  | EVENT_ALARM_BUTTON_UP
  | EVENT_ALARM_LONG_PRESS
  deriving DecidableEq, Repr

open movement_event_type_t

/-- The C value of an enumerator: `EVENT_NONE = 0`, each later one is one more than the
one before it. -/
def movement_event_type_t.toNat : movement_event_type_t → Nat
  | EVENT_NONE => 0
  | EVENT_ACTIVATE => 1
  | EVENT_TICK => 2
  | EVENT_LOW_ENERGY_UPDATE => 3
  | EVENT_BACKGROUND_TASK => 4
  | EVENT_TIMEOUT => 5
  | EVENT_LIGHT_BUTTON_DOWN => 6
  | EVENT_LIGHT_BUTTON_UP => 7
  | EVENT_LIGHT_LONG_PRESS => 8
  | EVENT_MODE_BUTTON_DOWN => 9
  | EVENT_MODE_BUTTON_UP => 10
  | EVENT_MODE_LONG_PRESS => 11
  | EVENT_ALARM_BUTTON_DOWN => 12
  | EVENT_ALARM_BUTTON_UP => 13
  | EVENT_ALARM_LONG_PRESS => 14

/-- Every enumerator of `movement_event_type_t`, in declaration order. -/
def movement_event_type_t.all : List movement_event_type_t :=
  [EVENT_NONE, EVENT_ACTIVATE, EVENT_TICK, EVENT_LOW_ENERGY_UPDATE, EVENT_BACKGROUND_TASK,
   EVENT_TIMEOUT, EVENT_LIGHT_BUTTON_DOWN, EVENT_LIGHT_BUTTON_UP, EVENT_LIGHT_LONG_PRESS,
   EVENT_MODE_BUTTON_DOWN, EVENT_MODE_BUTTON_UP, EVENT_MODE_LONG_PRESS,
   EVENT_ALARM_BUTTON_DOWN, EVENT_ALARM_BUTTON_UP, EVENT_ALARM_LONG_PRESS]

/-- The record `movement_event_t`: the kind, stored as a `uint8_t`, and the sub-second
counter. -/
structure movement_event_t where
  event_type : Nat
  subsecond : Nat
  deriving DecidableEq, Repr

/-- The three buttons of the watch. -/
inductive Button where
  | light
  | mode
  | alarm
  deriving DecidableEq, Repr

/-- The buttons, in the order the header lists their events. -/
def Button.all : List Button :=
  [.light, .mode, .alarm]

/-- The `*_BUTTON_DOWN` kind of a button. -/
def Button.downEvent : Button → movement_event_type_t
  | .light => EVENT_LIGHT_BUTTON_DOWN
  | .mode => EVENT_MODE_BUTTON_DOWN
  | .alarm => EVENT_ALARM_BUTTON_DOWN

/-- The `*_BUTTON_UP` kind of a button. -/
def Button.upEvent : Button → movement_event_type_t
  | .light => EVENT_LIGHT_BUTTON_UP
  | .mode => EVENT_MODE_BUTTON_UP
  | .alarm => EVENT_ALARM_BUTTON_UP

/-- The `*_LONG_PRESS` kind of a button. -/
def Button.longPressEvent : Button → movement_event_type_t
  | .light => EVENT_LIGHT_LONG_PRESS
  | .mode => EVENT_MODE_LONG_PRESS
  | .alarm => EVENT_ALARM_LONG_PRESS

/-- An event kind is a button-transition kind when it is the down, up or long-press kind
of one of the buttons. -/
def movement_event_type_t.isButton (e : movement_event_type_t) : Bool :=
  Button.all.any fun b =>
    decide (e = b.downEvent) || decide (e = b.upEvent) || decide (e = b.longPressEvent)

/-! ## Scheduler state -/

/-- Conversion to `uint8_t`. -/
def toUInt8 (n : Nat) : Nat :=
  n % 256

/-- Conversion to `int16_t` (two's complement wrap-around). -/
def toInt16 (z : Int) : Int :=
  (z + 32768) % 65536 - 32768

/-- The record `movement_state_t`; `settings` holds the 32-bit storage word. -/
structure movement_state_t where
  settings : Nat
  current_watch_face : Int
  next_watch_face : Int
  watch_face_changed : Bool
  light_ticks : Nat
  led_on : Bool
  light_down_timestamp : Nat
  mode_down_timestamp : Nat
  alarm_down_timestamp : Nat
  needs_background_tasks_handled : Bool
  le_mode_ticks : Int
  timeout_ticks : Int
  tick_frequency : Nat
  last_second : Nat
  subsecond : Nat
  deriving DecidableEq, Repr

/-- A state with every member zero except the tick frequency, which is 1 Hz. -/
def zero_state : movement_state_t where
  settings := 0
  current_watch_face := 0
  next_watch_face := 0
  watch_face_changed := false
  light_ticks := 0
  led_on := false
  light_down_timestamp := 0
  mode_down_timestamp := 0
  alarm_down_timestamp := 0
  needs_background_tasks_handled := false
  le_mode_ticks := 0
  timeout_ticks := 0
  tick_frequency := 1
  last_second := 0
  subsecond := 0

/-- The zero state with face 2 current. -/
def on_face_two : movement_state_t :=
  { zero_state with current_watch_face := 2 }

/-! ### Face navigation -/

/-- Modelled from the spec: the body of `movement_move_to_face` (the header only declares
it). It records the requested face in `next_watch_face` and raises `watch_face_changed`;
the switch itself waits for the tick boundary. The function receives its argument as a
`uint8_t`, so the index recorded is `watch_face_index` converted to 8 bits. -/
def movement_move_to_face (s : movement_state_t) (watch_face_index : Nat) :
    movement_state_t :=
  { s with next_watch_face := toInt16 (toUInt8 watch_face_index : Nat),
           watch_face_changed := true }

/-- Modelled from the spec: the body of `movement_move_to_next_face` (the header only
declares it). It requests the face after the current one, wrapping at the registry
size `N`. -/
def movement_move_to_next_face (N : Nat) (s : movement_state_t) : movement_state_t :=
  { s with next_watch_face := toInt16 ((s.current_watch_face + 1) % (N : Int)),
           watch_face_changed := true }

/-- A lifecycle callback of a face run by the scheduler, with the face's index. -/
inductive LifecycleCall where
  | resign (face : Int)
  | activate (face : Int)
  deriving DecidableEq, Repr

/-- Modelled from the spec: the tick-boundary step that resolves a pending face switch (its
code is not in the header). When `watch_face_changed` is set and the requested index is
within the registry of size `N`, the old face resigns, the requested face becomes current
and is activated, and the flag is cleared. When the requested index is out of the
registry bounds the switch is rejected: the current face stays, no callback runs and the
flag is cleared. Without a pending request nothing happens. The result carries the
lifecycle calls made, in order. The reset of the inactivity countdowns on activation is
left out: the interval tables are not given. -/
def resolve_face_switch (N : Nat) (s : movement_state_t) :
    movement_state_t × List LifecycleCall :=
  if s.watch_face_changed then
    if 0 ≤ s.next_watch_face ∧ s.next_watch_face < (N : Int) then
      ({ s with current_watch_face := s.next_watch_face, watch_face_changed := false },
       [.resign s.current_watch_face, .activate s.next_watch_face])
    else ({ s with watch_face_changed := false }, [])
  else (s, [])

/-- One mode-button up event answered by `movement_move_to_next_face`, followed by the
tick boundary that applies the request. -/
def mode_up_cycle (N : Nat) (s : movement_state_t) : movement_state_t :=
  (resolve_face_switch N (movement_move_to_next_face N s)).1

/-- The state after `k` mode-button up events, each handled by `mode_up_cycle`. -/
def after_mode_ups (N : Nat) : Nat → movement_state_t → movement_state_t
  | 0, s => s
  | k + 1, s => after_mode_ups N k (mode_up_cycle N s)

/-! ### Button tracker -/

/-- The down timestamp member of a button. -/
def down_timestamp (s : movement_state_t) : Button → Nat
  | .light => s.light_down_timestamp
  | .mode => s.mode_down_timestamp
  | .alarm => s.alarm_down_timestamp

/-- Storing into the down timestamp member of a button (a `uint8_t`). -/
def set_down_timestamp (s : movement_state_t) (b : Button) (t : Nat) : movement_state_t :=
  match b with
  | .light => { s with light_down_timestamp := toUInt8 t }
  | .mode => { s with mode_down_timestamp := toUInt8 t }
  | .alarm => { s with alarm_down_timestamp := toUInt8 t }

/-- Modelled from the spec: the down edge of a button at tick `now` (the tracker's code is
not in the header). The current timestamp, the tick count as an 8-bit value, is recorded
in the button's `*_down_timestamp` member and the button's DOWN kind is emitted. -/
def button_down (s : movement_state_t) (b : Button) (now : Nat) :
    movement_state_t × movement_event_type_t :=
  (set_down_timestamp s b now, b.downEvent)

/-- The held duration the tracker computes at tick `now`: the current timestamp, an 8-bit
value like the recorded one, minus the recorded timestamp, in 8-bit arithmetic (the
wraparound-safe subtraction of the design notes). -/
def held_duration (s : movement_state_t) (b : Button) (now : Nat) : Nat :=
  toUInt8 (toUInt8 now + 256 - down_timestamp s b)

/-- Modelled from the spec: the up edge of a button at tick `now` (the tracker's code is
not in the header). When the held duration reaches two seconds of ticks at the current
tick frequency the LONG_PRESS kind is emitted, otherwise the UP kind. -/
def button_up (s : movement_state_t) (b : Button) (now : Nat) : movement_event_type_t :=
  if 2 * s.tick_frequency ≤ held_duration s b now then b.longPressEvent else b.upEvent

/-- The event emitted when button `b` goes down at tick `a` and is released at tick `r`. -/
def release_event (s : movement_state_t) (b : Button) (a r : Nat) : movement_event_type_t :=
  button_up (button_down s b a).1 b r

/-! ### LED controller -/

/-- Modelled from the spec: the body of `movement_illuminate_led` (the header only declares
it). The countdown `light_ticks` (a `uint8_t`) is loaded with `led_duration * 2` seconds
expressed in ticks and the LED is switched on. A `led_duration` of 0 disables the LED, as
the header's comment on the member says: the request then does not switch it on. -/
def movement_illuminate_led (s : movement_state_t) : movement_state_t :=
  { s with led_on := if readField .led_duration s.settings = 0 then s.led_on else true,
           light_ticks := toUInt8 (readField .led_duration s.settings * 2 * s.tick_frequency) }

/-- Modelled from the spec: the LED part of one tick (its code is not in the header). An
active countdown is decremented, and the LED goes off when it reaches zero; a countdown
of zero is inactive and leaves the LED alone. -/
def led_tick (s : movement_state_t) : movement_state_t :=
  if 0 < s.light_ticks then
    { s with light_ticks := s.light_ticks - 1,
             led_on := if s.light_ticks - 1 = 0 then false else s.led_on }
  else s

/-- The current face is a valid index of a registry of size `N`. -/
def face_valid (N : Nat) (s : movement_state_t) : Prop :=
  0 ≤ s.current_watch_face ∧ s.current_watch_face < (N : Int)

/-- The states the scheduler reaches from `s0` through navigation requests, tick
boundaries, LED requests and ticks, and button down edges. -/
inductive Reachable (N : Nat) (s0 : movement_state_t) : movement_state_t → Prop where
  | start : Reachable N s0 s0
  | move_to_face {s : movement_state_t} (i : Nat) :
      Reachable N s0 s → Reachable N s0 (movement_move_to_face s i)
  | move_to_next_face {s : movement_state_t} :
      Reachable N s0 s → Reachable N s0 (movement_move_to_next_face N s)
  | boundary {s : movement_state_t} :
      Reachable N s0 s → Reachable N s0 (resolve_face_switch N s).1
  | illuminate {s : movement_state_t} :
      Reachable N s0 s → Reachable N s0 (movement_illuminate_led s)
  | led {s : movement_state_t} :
      Reachable N s0 s → Reachable N s0 (led_tick s)
  | button {s : movement_state_t} (b : Button) (now : Nat) :
      Reachable N s0 s → Reachable N s0 (button_down s b now).1

/-! ### Layout facts used by the proofs -/

theorem offset_reserved : Field.reserved.offset = 0 := rfl
theorem offset_button_should_sound : Field.button_should_sound.offset = 14 := by decide
theorem offset_to_interval : Field.to_interval.offset = 15 := by decide
theorem offset_le_interval : Field.le_interval.offset = 17 := by decide
theorem offset_led_duration : Field.led_duration.offset = 20 := by decide
theorem offset_led_red_color : Field.led_red_color.offset = 22 := by decide
theorem offset_led_green_color : Field.led_green_color.offset = 26 := by decide
theorem offset_clock_mode_24h : Field.clock_mode_24h.offset = 30 := by decide
theorem offset_use_imperial_units : Field.use_imperial_units.offset = 31 := by decide

theorem decode_encode_of_inRange (r : movement_settings_bit) (h : r.inRange) :
    decode (encode r) = r := by
  obtain ⟨h1, h2, h3, h4, h5, h6, h7, h8, h9⟩ := h
  cases r
  simp only [decode, encode, readField, offset_reserved, offset_button_should_sound,
    offset_to_interval, offset_le_interval, offset_led_duration, offset_led_red_color,
    offset_led_green_color, offset_clock_mode_24h, offset_use_imperial_units,
    Field.width, movement_settings_bit.mk.injEq] at *
  norm_num at *
  refine ⟨?_, ?_, ?_, ?_, ?_, ?_, ?_, ?_, ?_⟩ <;> omega

theorem encode_decode_of_lt (v : Nat) (h : v < 2 ^ 32) : encode (decode v) = v := by
  simp only [decode, encode, readField, offset_reserved, offset_button_should_sound,
    offset_to_interval, offset_le_interval, offset_led_duration, offset_led_red_color,
    offset_led_green_color, offset_clock_mode_24h, offset_use_imperial_units,
    Field.width]
  norm_num at *
  omega

set_option maxHeartbeats 4000000 in
theorem readField_writeField (f g : Field) (x v : Nat) (h : v < 2 ^ 32) :
    readField g (writeField f x v) = if g = f then x % 2 ^ f.width else readField g v := by
  have hx : x % 2 ^ f.width < 2 ^ f.width := Nat.mod_lt _ (by positivity)
  simp only [readField, writeField]
  generalize x % 2 ^ f.width = y at hx ⊢
  cases f <;> cases g <;>
    simp only [offset_reserved, offset_button_should_sound,
      offset_to_interval, offset_le_interval, offset_led_duration, offset_led_red_color,
      offset_led_green_color, offset_clock_mode_24h, offset_use_imperial_units,
      Field.width, reduceCtorEq, if_true, if_false] at hx ⊢ <;>
    norm_num at hx h ⊢ <;> omega

theorem writeField_lt (f : Field) (x v : Nat) (h : v < 2 ^ 32) : writeField f x v < 2 ^ 32 := by
  have hx : x % 2 ^ f.width < 2 ^ f.width := Nat.mod_lt _ (by positivity)
  simp only [readField, writeField]
  generalize x % 2 ^ f.width = y at hx ⊢
  cases f <;>
    simp only [offset_reserved, offset_button_should_sound,
      offset_to_interval, offset_le_interval, offset_led_duration, offset_led_red_color,
      offset_led_green_color, offset_clock_mode_24h, offset_use_imperial_units,
      Field.width] at hx ⊢ <;>
    norm_num at hx h ⊢ <;> omega

theorem encode_decode_lt (v : Nat) : encode (decode v) < 2 ^ 32 := by
  simp only [decode, encode, readField, offset_reserved, offset_button_should_sound,
    offset_to_interval, offset_le_interval, offset_led_duration, offset_led_red_color,
    offset_led_green_color, offset_clock_mode_24h, offset_use_imperial_units,
    Field.width]
  norm_num
  omega

theorem toInt16_of_range (z : Int) (h0 : -32768 ≤ z) (h1 : z < 32768) : toInt16 z = z := by
  unfold toInt16
  omega

theorem toInt16_toUInt8 (i : Nat) : toInt16 (toUInt8 i : Nat) = (toUInt8 i : Nat) := by
  have h : toUInt8 i < 256 := Nat.mod_lt _ (by norm_num)
  exact toInt16_of_range _ (by omega) (by omega)

theorem face_valid_congr (N : Nat) (s t : movement_state_t)
    (h : t.current_watch_face = s.current_watch_face) (hv : face_valid N s) :
    face_valid N t := by
  unfold face_valid at hv ⊢
  rw [h]
  exact hv

theorem resolve_face_switch_valid (N : Nat) (s : movement_state_t) (hv : face_valid N s) :
    face_valid N (resolve_face_switch N s).1 := by
  unfold resolve_face_switch
  by_cases hc : s.watch_face_changed = true
  · rw [if_pos hc]
    by_cases hb : 0 ≤ s.next_watch_face ∧ s.next_watch_face < (N : Int)
    · rw [if_pos hb]
      exact hb
    · rw [if_neg hb]
      exact face_valid_congr N s _ rfl hv
  · rw [if_neg hc]
    exact hv

theorem resolve_rejects (N : Nat) (s : movement_state_t) (hc : s.watch_face_changed = true)
    (hb : ¬ (0 ≤ s.next_watch_face ∧ s.next_watch_face < (N : Int))) :
    resolve_face_switch N s = ({ s with watch_face_changed := false }, []) := by
  unfold resolve_face_switch
  rw [if_pos hc, if_neg hb]

theorem resolve_accepts (N : Nat) (s : movement_state_t) (hc : s.watch_face_changed = true)
    (hb : 0 ≤ s.next_watch_face ∧ s.next_watch_face < (N : Int)) :
    resolve_face_switch N s
      = ({ s with current_watch_face := s.next_watch_face, watch_face_changed := false },
         [.resign s.current_watch_face, .activate s.next_watch_face]) := by
  unfold resolve_face_switch
  rw [if_pos hc, if_pos hb]

theorem move_to_face_current (s : movement_state_t) (i : Nat) :
    (movement_move_to_face s i).current_watch_face = s.current_watch_face := by
  simp only [movement_move_to_face]

theorem move_to_face_next (s : movement_state_t) (i : Nat) :
    (movement_move_to_face s i).next_watch_face = (toUInt8 i : Nat) := by
  simp only [movement_move_to_face]
  exact toInt16_toUInt8 i

theorem move_to_face_changed (s : movement_state_t) (i : Nat) :
    (movement_move_to_face s i).watch_face_changed = true := by
  simp only [movement_move_to_face]

theorem valid_request_switches (N : Nat) (s : movement_state_t) (i : Nat)
    (hi : toUInt8 i < N) :
    (resolve_face_switch N (movement_move_to_face s i)).1.current_watch_face
      = (toUInt8 i : Nat)
    ∧ (resolve_face_switch N (movement_move_to_face s i)).2
      = [.resign s.current_watch_face, .activate (toUInt8 i : Nat)] := by
  have hn := move_to_face_next s i
  have hb : 0 ≤ (movement_move_to_face s i).next_watch_face
      ∧ (movement_move_to_face s i).next_watch_face < (N : Int) := by
    rw [hn]
    omega
  have hcur := move_to_face_current s i
  rw [resolve_accepts N _ (move_to_face_changed s i) hb]
  refine ⟨hn, ?_⟩
  show [LifecycleCall.resign (movement_move_to_face s i).current_watch_face,
      LifecycleCall.activate (movement_move_to_face s i).next_watch_face] = _
  rw [hn, hcur]

theorem mode_up_cycle_valid (N : Nat) (s : movement_state_t) (hN : N ≤ 32768)
    (hv : face_valid N s) :
    (mode_up_cycle N s).current_watch_face = (s.current_watch_face + 1) % (N : Int)
    ∧ face_valid N (mode_up_cycle N s) := by
  obtain ⟨h0, h1⟩ := hv
  have hpos : (0 : Int) < (N : Int) := by omega
  have hm0 : 0 ≤ (s.current_watch_face + 1) % (N : Int) := Int.emod_nonneg _ (by omega)
  have hm1 : (s.current_watch_face + 1) % (N : Int) < (N : Int) := Int.emod_lt_of_pos _ hpos
  have hn : (movement_move_to_next_face N s).next_watch_face
      = (s.current_watch_face + 1) % (N : Int) :=
    toInt16_of_range _ (by omega) (by omega)
  have hb : 0 ≤ (movement_move_to_next_face N s).next_watch_face
      ∧ (movement_move_to_next_face N s).next_watch_face < (N : Int) := by
    rw [hn]
    exact ⟨hm0, hm1⟩
  have hc : (mode_up_cycle N s).current_watch_face
      = (s.current_watch_face + 1) % (N : Int) := by
    unfold mode_up_cycle
    rw [resolve_accepts N _ rfl hb]
    exact hn
  exact ⟨hc, by rw [face_valid, hc]; exact ⟨hm0, hm1⟩⟩

theorem face_valid_of_reachable (N : Nat) (s0 s : movement_state_t)
    (h0 : face_valid N s0) (hr : Reachable N s0 s) : face_valid N s := by
  induction hr with
  | start => exact h0
  | @move_to_face t i _ ih => exact face_valid_congr N t _ (move_to_face_current t i) ih
  | @move_to_next_face t _ ih => exact face_valid_congr N t _ rfl ih
  | boundary _ ih => exact resolve_face_switch_valid N _ ih
  | @illuminate t _ ih => exact face_valid_congr N t _ rfl ih
  | @led t _ ih =>
    refine face_valid_congr N t _ ?_ ih
    unfold led_tick
    split <;> rfl
  | @button t b now _ ih =>
    refine face_valid_congr N t _ ?_ ih
    cases b <;> rfl

theorem held_duration_after_down (s : movement_state_t) (b : Button) (a r : Nat) :
    held_duration (button_down s b a).1 b r = (r % 256 + 256 - a % 256) % 256 := by
  cases b <;> rfl

theorem release_event_of_short_hold (s : movement_state_t) (b : Button) (a r : Nat)
    (har : a ≤ r) (hh : r - a ≤ 255) :
    release_event s b a r
      = if 2 * s.tick_frequency ≤ r - a then b.longPressEvent else b.upEvent := by
  have hd : held_duration (button_down s b a).1 b r = r - a := by
    rw [held_duration_after_down]
    omega
  have hf : (button_down s b a).1.tick_frequency = s.tick_frequency := by
    cases b <;> rfl
  unfold release_event button_up
  rw [hd, hf]

/-! ## The settings word -/

/-- C1: for every 32-bit value `v`, decoding `v` into the nine bit-fields of
`movement_settings_t` and encoding those fields again yields exactly `v`. -/
theorem settings_round_trip (v : Nat) (h : v < 2 ^ 32) : encode (decode v) = v :=
  encode_decode_of_lt v h

/-- The round trip of C1 at the value `0xDEADBEEF`. -/
theorem settings_round_trip_witness :
    0xDEADBEEF < 2 ^ 32 ∧ encode (decode 0xDEADBEEF) = 0xDEADBEEF :=
  ⟨by norm_num, settings_round_trip 0xDEADBEEF (by norm_num)⟩

/-- C5: the bit pattern `0x00000000` decodes to the record whose nine members are all
zero, and it is the only 32-bit value that decodes to that record. -/
theorem settings_zero_is_default :
    decode 0x00000000 = ⟨0, 0, 0, 0, 0, 0, 0, 0, 0⟩
    ∧ ∀ v : Nat, v < 2 ^ 32 → decode v = ⟨0, 0, 0, 0, 0, 0, 0, 0, 0⟩ → v = 0 := by
  refine ⟨by decide, fun v hv hd => ?_⟩
  have h := encode_decode_of_lt v hv
  rw [hd] at h
  rw [← h]
  decide

/-- The uniqueness part of C5 at the value `0`. -/
theorem settings_zero_is_default_witness :
    decode 0 = ⟨0, 0, 0, 0, 0, 0, 0, 0, 0⟩ ∧ (0 : Nat) = 0 :=
  ⟨settings_zero_is_default.1, settings_zero_is_default.2 0 (by norm_num) (by decide)⟩

/-- C7: the nine bit-fields have the widths 14, 1, 2, 3, 2, 4, 4, 1, 1, which total 32;
they lie in declaration order at the offsets 0, 14, 15, 17, 20, 22, 26, 30, 31, each inside
the 32-bit word, and the bit ranges of two different fields are disjoint. Every tuple of
member values within the field ranges encodes to a 32-bit value that decodes to the same
tuple, and decoding any value gives LED red and green intensities between 0 and 15. -/
theorem settings_layout_bit_exact :
    Field.decls.map Field.width = [14, 1, 2, 3, 2, 4, 4, 1, 1]
    ∧ (Field.decls.map Field.width).sum = 32
    ∧ (∀ f : Field, f ∈ Field.decls)
    ∧ Field.decls.map Field.offset = [0, 14, 15, 17, 20, 22, 26, 30, 31]
    ∧ (∀ f : Field, f.stop ≤ 32)
    ∧ (∀ f g : Field, f ≠ g → f.stop ≤ g.offset ∨ g.stop ≤ f.offset)
    ∧ (∀ r : movement_settings_bit, r.inRange → encode r < 2 ^ 32 ∧ decode (encode r) = r)
    ∧ (∀ v : Nat, (decode v).led_red_color ≤ 15 ∧ (decode v).led_green_color ≤ 15) := by
  refine ⟨by decide, by decide, fun f => by cases f <;> decide, by decide,
    fun f => by cases f <;> decide, fun f g => by cases f <;> cases g <;> decide, ?_, ?_⟩
  · intro r hr
    refine ⟨?_, decode_encode_of_inRange r hr⟩
    rw [← decode_encode_of_inRange r hr]
    exact encode_decode_lt _
  · intro v
    simp only [decode, readField, Field.width]
    omega

/-- The round trip of C7 at one tuple of member values within the field ranges. -/
theorem settings_layout_bit_exact_witness :
    decode (encode ⟨16383, 1, 3, 7, 2, 15, 9, 0, 1⟩) = ⟨16383, 1, 3, 7, 2, 15, 9, 0, 1⟩ :=
  (settings_layout_bit_exact.2.2.2.2.2.2.1 ⟨16383, 1, 3, 7, 2, 15, 9, 0, 1⟩
    (by simp [movement_settings_bit.inRange])).2

/-- C9: writing `x` to one bit-field of a 32-bit settings value gives a 32-bit value in
which that field reads back as `x` reduced modulo two to the field's width and every other
field, the 14 reserved bits included, reads the same as before the write. -/
theorem settings_field_write_frame (v : Nat) (h : v < 2 ^ 32) (f : Field) (x : Nat) :
    writeField f x v < 2 ^ 32
    ∧ readField f (writeField f x v) = x % 2 ^ f.width
    ∧ (∀ g : Field, g ≠ f → readField g (writeField f x v) = readField g v)
    ∧ (f ≠ .reserved → (decode (writeField f x v)).reserved = (decode v).reserved) := by
  refine ⟨writeField_lt f x v h, ?_, ?_, ?_⟩
  · rw [readField_writeField f f x v h, if_pos rfl]
  · intro g hg
    rw [readField_writeField f g x v h, if_neg hg]
  · intro hf
    show readField .reserved (writeField f x v) = readField .reserved v
    rw [readField_writeField f .reserved x v h, if_neg (fun e => hf e.symm)]

/-- The write of C9 at `led_duration := 7` on the value `0xFFFFFFFF`. -/
theorem settings_field_write_frame_witness :
    readField .led_duration (writeField .led_duration 7 0xFFFFFFFF) = 7 % 2 ^ 2
    ∧ readField .reserved (writeField .led_duration 7 0xFFFFFFFF)
        = readField .reserved 0xFFFFFFFF :=
  ⟨(settings_field_write_frame 0xFFFFFFFF (by norm_num) .led_duration 7).2.1,
   (settings_field_write_frame 0xFFFFFFFF (by norm_num) .led_duration 7).2.2.1 .reserved
     (by decide)⟩

/-! ## Event kinds -/

/-- C6, as stated, fails: nine of the enumerators are button-transition kinds, not six,
and no list of twelve kinds contains every enumerator of `movement_event_type_t`. -/
theorem event_kinds_not_twelve :
    (movement_event_type_t.all.filter movement_event_type_t.isButton).length = 9
    ∧ ¬ ∃ l : List movement_event_type_t, l.length = 12 ∧ ∀ e, e ∈ l := by
  refine ⟨by decide, ?_⟩
  rintro ⟨l, hl, hall⟩
  have hnd : movement_event_type_t.all.Nodup := by decide
  have hsub : movement_event_type_t.all ⊆ l := fun e _ => hall e
  have hle := (List.subperm_of_subset hnd hsub).length_le
  have h15 : movement_event_type_t.all.length = 15 := by decide
  omega

/-- C6, amended: the event kind is drawn from a closed set of fifteen kinds, numbered
0 to 14 in declaration order: none, activate, tick, low-energy-update, background-task,
timeout, and nine button-transition kinds (down, up and long-press for each of the light,
mode and alarm buttons); `movement_event_type_t` has no member outside this set, and each
kind is stored unchanged in the `uint8_t` member `event_type` of `movement_event_t`. -/
theorem event_kinds_closed :
    (∀ e : movement_event_type_t, e ∈ movement_event_type_t.all)
    ∧ movement_event_type_t.all.Nodup
    ∧ movement_event_type_t.all.length = 15
    ∧ movement_event_type_t.all.map movement_event_type_t.toNat = List.range 15
    ∧ (∀ e : movement_event_type_t,
        (movement_event_t.mk (toUInt8 e.toNat) 0).event_type = e.toNat)
    ∧ movement_event_type_t.all.filter (fun e => !e.isButton)
        = [EVENT_NONE, EVENT_ACTIVATE, EVENT_TICK, EVENT_LOW_ENERGY_UPDATE,
           EVENT_BACKGROUND_TASK, EVENT_TIMEOUT]
    ∧ movement_event_type_t.all.filter movement_event_type_t.isButton
        = [Button.light.downEvent, Button.light.upEvent, Button.light.longPressEvent,
           Button.mode.downEvent, Button.mode.upEvent, Button.mode.longPressEvent,
           Button.alarm.downEvent, Button.alarm.upEvent, Button.alarm.longPressEvent] := by
  refine ⟨fun e => by cases e <;> decide, by decide, by decide, by decide,
    fun e => by cases e <;> decide, by decide, by decide⟩

/-! ## Button tracker -/

/-- C10: the countdown `led_duration * 2 * tick_frequency` loaded into the 8-bit
`light_ticks` is exact, and at most 255, for every `led_duration` (a 2-bit field, 0 to 3)
whenever the tick frequency is between 1 and 42; at 43 Hz with `led_duration = 3` the
value 258 does not fit and 258 mod 256 = 2 is stored. -/
theorem light_ticks_representation :
    (∀ s : movement_state_t, 1 ≤ s.tick_frequency → s.tick_frequency ≤ 42 →
      readField .led_duration s.settings ≤ 3
      ∧ readField .led_duration s.settings * 2 * s.tick_frequency ≤ 255
      ∧ (movement_illuminate_led s).light_ticks
          = readField .led_duration s.settings * 2 * s.tick_frequency)
    ∧ (∀ s : movement_state_t, s.tick_frequency = 43 →
        readField .led_duration s.settings = 3 →
        readField .led_duration s.settings * 2 * s.tick_frequency = 258
        ∧ (movement_illuminate_led s).light_ticks = 2) := by
  constructor
  · intro s h1 h42
    have hd : readField .led_duration s.settings ≤ 3 := by
      simp only [readField, Field.width]
      omega
    have hb : readField .led_duration s.settings * 2 * s.tick_frequency ≤ 255 := by
      calc readField .led_duration s.settings * 2 * s.tick_frequency
          ≤ 3 * 2 * 42 := Nat.mul_le_mul (Nat.mul_le_mul hd (le_refl 2)) h42
        _ ≤ 255 := by norm_num
    refine ⟨hd, hb, ?_⟩
    simp only [movement_illuminate_led, toUInt8]
    omega
  · intro s hf hd
    simp only [movement_illuminate_led, toUInt8, hf, hd]
    decide

/-- The countdown of C10 at `led_duration = 3`: exact at 42 Hz, wrapped to 2 at 43 Hz. -/
theorem light_ticks_representation_witness :
    (movement_illuminate_led
      { zero_state with settings := 3 * 2 ^ 20, tick_frequency := 42 }).light_ticks = 252
    ∧ (movement_illuminate_led
      { zero_state with settings := 3 * 2 ^ 20, tick_frequency := 43 }).light_ticks = 2 :=
  ⟨(light_ticks_representation.1
      { zero_state with settings := 3 * 2 ^ 20, tick_frequency := 42 }
      (by decide) (by decide)).2.2,
   (light_ticks_representation.2
      { zero_state with settings := 3 * 2 ^ 20, tick_frequency := 43 }
      rfl (by decide)).2⟩

/-- C3, as stated, fails: with a registry of 32769 faces and face 32767 current, the next
index (32767 + 1) mod 32769 = 32768 does not fit the 16-bit signed `next_watch_face`,
which holds -32768 instead, and after one mode-button up event `current_watch_face` is
still 32767, not 32768. -/
theorem next_face_wraps_int16 :
    (movement_move_to_next_face 32769
      { zero_state with current_watch_face := 32767 }).next_watch_face = -32768
    ∧ (after_mode_ups 32769 1
      { zero_state with current_watch_face := 32767 }).current_watch_face = 32767
    ∧ ((32767 + 1) % 32769 : Int) = 32768 := by
  decide

/-- C3, amended: for every registry size `N` with `1 ≤ N ≤ 32768` (every face index fits
the 16-bit signed `current_watch_face`), every initial `current_watch_face = i` with
`0 ≤ i < N` and every `k`, after `k` mode-button up events, each answered by
`movement_move_to_next_face` and applied at the following tick boundary,
`current_watch_face` equals `(i + k) mod N`. -/
theorem current_face_after_mode_ups (N : Nat) (s : movement_state_t) (k : Nat)
    (_hN1 : 1 ≤ N) (hN : N ≤ 32768) (hi0 : 0 ≤ s.current_watch_face)
    (hi1 : s.current_watch_face < (N : Int)) :
    (after_mode_ups N k s).current_watch_face
      = (s.current_watch_face + (k : Int)) % (N : Int) := by
  induction k generalizing s with
  | zero =>
    simp only [after_mode_ups, Nat.cast_zero, add_zero]
    exact (Int.emod_eq_of_lt hi0 hi1).symm
  | succ k ih =>
    obtain ⟨hc, hv0, hv1⟩ := mode_up_cycle_valid N s hN ⟨hi0, hi1⟩
    rw [after_mode_ups, ih (mode_up_cycle N s) hv0 hv1, hc, Int.emod_add_emod]
    congr 1
    push_cast
    ring

/-- The navigation of C3 with three faces: from face 1, four mode-button up events lead
to face (1 + 4) mod 3 = 2. -/
theorem current_face_after_mode_ups_witness :
    (after_mode_ups 3 4 { zero_state with current_watch_face := 1 }).current_watch_face
      = (1 + 4) % 3 :=
  current_face_after_mode_ups 3 { zero_state with current_watch_face := 1 } 4
    (by decide) (by decide) (by decide) (by decide)

/-- C8: for every registry size `N`, every state with `0 ≤ current_watch_face < N` and
every index `movement_move_to_face` receives (its argument as a `uint8_t`): if the index
is `N` or more the request is rejected, so that after the next tick boundary
`current_watch_face` is unchanged, still valid, and no resign or activate has run; and
`0 ≤ current_watch_face < N` holds in every state reachable from such a state. -/
theorem out_of_range_request_rejected (N : Nat) (s : movement_state_t)
    (hv : face_valid N s) :
    (∀ i : Nat, N ≤ toUInt8 i →
      (resolve_face_switch N (movement_move_to_face s i)).1.current_watch_face
          = s.current_watch_face
      ∧ (resolve_face_switch N (movement_move_to_face s i)).2 = []
      ∧ face_valid N (resolve_face_switch N (movement_move_to_face s i)).1)
    ∧ (∀ t : movement_state_t, Reachable N s t → face_valid N t) := by
  constructor
  · intro i hi
    have hb : ¬ (0 ≤ (movement_move_to_face s i).next_watch_face
        ∧ (movement_move_to_face s i).next_watch_face < (N : Int)) := by
      rw [move_to_face_next]
      omega
    rw [resolve_rejects N _ (move_to_face_changed s i) hb]
    have hcur : (movement_move_to_face s i).current_watch_face = s.current_watch_face :=
      move_to_face_current s i
    refine ⟨?_, rfl, face_valid_congr N s _ ?_ hv⟩
    · dsimp only
      exact hcur
    · dsimp only
      exact hcur
  · intro t ht
    exact face_valid_of_reachable N s t hv ht

/-- The rejection of C8 with three faces and face 2 current: after the request for face 3
and a tick boundary face 2 is still current and no callback has run, and the state after a
request for face 1, a tick boundary, a request for face 200 and another tick boundary has
a valid current face. -/
theorem out_of_range_request_rejected_witness :
    (resolve_face_switch 3 (movement_move_to_face on_face_two 3)).1.current_watch_face = 2
    ∧ (resolve_face_switch 3 (movement_move_to_face on_face_two 3)).2 = []
    ∧ face_valid 3 (resolve_face_switch 3 (movement_move_to_face
        (resolve_face_switch 3 (movement_move_to_face on_face_two 1)).1 200)).1 :=
  ⟨((out_of_range_request_rejected 3 on_face_two ⟨by decide, by decide⟩).1 3
      (by decide)).1,
   ((out_of_range_request_rejected 3 on_face_two ⟨by decide, by decide⟩).1 3
      (by decide)).2.1,
   (out_of_range_request_rejected 3 on_face_two ⟨by decide, by decide⟩).2 _
      (Reachable.boundary (Reachable.move_to_face 200
        (Reachable.boundary (Reachable.move_to_face 1 Reachable.start))))⟩

end Movement
